import Mathlib

/-!
Verification of the climate-disasters pipeline
(`climate_disasters_pipeline.py` and its Streamlit front end `app.py`).

The Python module loads temperature and natural-disaster CSVs, normalizes
them into a canonical long-format event table, aggregates to annual
granularity, outer-merges temperature with disaster counts, and computes
summary statistics.  Below, each relevant function is shallowly embedded
as a Lean definition over explicit list-shaped tables, and the spec's
claims are settled against those definitions.

Conventions of the embedding:
* pandas missing values (`NaN` / `NaT`) are `Option.none`;
* numeric cell values are rationals (`ℚ`), years are integers (`ℤ`);
* the results of the external parsers (`pd.to_datetime`, `pd.to_numeric`)
  are taken as inputs of type `Option _` — an unparseable cell is `none`;
* a pandas `DataFrame` is modelled by exactly the parts of it the
  embedded function inspects (column names, dtypes, cell values).
-/

/-! ## Generic list helpers (insertion sort, substring search) -/

/-- Insert `x` into `l` in front of the first element `y` with `le x y = true`.
Used to model pandas `sort_values` (a stable sort on the key). -/
def insertBy (le : α → α → Bool) (x : α) : List α → List α
  | [] => [x]
  | y :: ys => if le x y then x :: y :: ys else y :: insertBy le x ys

/-- Stable insertion sort by the boolean relation `le`. -/
def sortBy (le : α → α → Bool) : List α → List α
  | [] => []
  | x :: xs => insertBy le x (sortBy le xs)

/-- `charsBegin hay needle` : `needle` occurs at the very start of `hay`. -/
def charsBegin : List Char → List Char → Bool
  | _, [] => true
  | [], _ :: _ => false
  | h :: hs, n :: ns => h = n && charsBegin hs ns

/-- `charsHaveSub hay needle` : `needle` occurs contiguously somewhere in
`hay` (the semantics of Python's `in` on strings). -/
def charsHaveSub : List Char → List Char → Bool
  | [], needle => needle.isEmpty
  | h :: t, needle => charsBegin (h :: t) needle || charsHaveSub t needle

/-- Python `needle in hay` for strings. -/
def strHasSub (hay needle : String) : Bool :=
  charsHaveSub hay.data needle.data

/-- Python `s.lower()` (ASCII is all that appears in the column names). -/
def strLower (s : String) : String :=
  ⟨s.data.map Char.toLower⟩

/-- Python `s.replace(" ", "")`. -/
def strDropSpaces (s : String) : String :=
  ⟨s.data.filter (fun c => c ≠ ' ')⟩

/-! ## ColumnResolver : `_guess_disaster_type_column` (lines 30-63)

A DataFrame is modelled, for this function, by its ordered list of columns,
each carrying its name and whether its dtype is `object` (string-typed). -/

/-- One column header of a loaded DataFrame: its name and whether
`select_dtypes(include="object")` would keep it. -/
structure ColSpec where
  name : String
  isObject : Bool
deriving Repr, DecidableEq

/-- The explicit alias list of step 1 of `_guess_disaster_type_column`
(line 44). -/
def aliasNames : List String :=
  ["disaster_type", "DisasterType", "Disaster_Type", "Disaster Type", "Hazard_Type"]

/-- The keyword list of step 2 (line 49). -/
def typeKeywords : List String :=
  ["disaster", "hazard", "eventtype", "event_type", "type"]

/-- Step-2 test: the lower-cased, space-stripped column name contains one of
the keywords (lines 50-53). -/
def kwMatch (c : String) : Bool :=
  typeKeywords.any (fun k => strHasSub (strDropSpaces (strLower c)) k)

/-- Step-3 test: the lower-cased name looks like a year/date/time/id column
and is therefore skipped (lines 56-59). -/
def looksTemporal (c : String) : Bool :=
  strHasSub (strLower c) "year" || strHasSub (strLower c) "date" ||
  strHasSub (strLower c) "time" || strHasSub (strLower c) "id"

/-- `_guess_disaster_type_column` (lines 30-63).  Returns `none` exactly when
Python would raise (an `IndexError` from `df.columns[-1]` on a table with no
columns at all); on every other table it returns the chosen column name. -/
def guessDisasterTypeColumn (cols : List ColSpec) : Option String :=
  let names := cols.map ColSpec.name
  let objectCols := (cols.filter ColSpec.isObject).map ColSpec.name
  if objectCols.isEmpty then
    names.getLast?
  else
    match aliasNames.find? (fun a => names.contains a) with
    | some a => some a
    | none =>
      match objectCols.find? kwMatch with
      | some c => some c
      | none =>
        match objectCols.find? (fun c => !looksTemporal c) with
        | some c => some c
        | none => names.getLast?

/-! ## SourceLoader : temperature conversions (`load_temperature_data`) -/

/-- Berkeley Earth temperatures are in Celsius; line 154 computes
`temps_berk[temp_col] * 9 / 5 + 32`. -/
def berkTempF (c : ℚ) : ℚ := c * 9 / 5 + 32

/-- The Gia source is already annual Fahrenheit; line 105 merely renames
the column, leaving every value unchanged. -/
def giaTempF (v : ℚ) : ℚ := v

/-- The Josep Ferrer source is already Fahrenheit; lines 162-164 apply
`pd.to_numeric(..., errors="coerce")`, which leaves a numeric reading
unchanged (an unparseable cell would become absent instead). -/
def josepTempF (v : ℚ) : ℚ := v

/-- Modelled from the spec's words (`F = C * 9/5 + 32`), for comparison
with the code's `berkTempF`. -/
def specCelsiusToF (c : ℚ) : ℚ := c * (9 / 5) + 32

/-! ## SourceLoader / Normalizer : `load_disaster_data` (lines 190-275) -/

/-- A calendar date as produced by `pd.to_datetime`; the pipeline only
ever reads `.dt.year`, but month and day are kept for concreteness. -/
structure SimpleDate where
  year : ℤ
  month : ℕ
  day : ℕ
deriving Repr, DecidableEq

/-- One raw disaster row, holding the results of the pandas parsers on
the cells the pipeline reads:
* `yearNum` : `pd.to_numeric(row["Year"], errors="coerce")` when a `Year`
  column exists (`none` = NaN: missing or unparseable);
* `dateParsed` : `pd.to_datetime(<date cell>, errors="coerce")`
  (`none` = NaT: missing or unparseable date);
* `typeVal` : the raw cell of the guessed disaster-type column
  (`none` = NaN: missing label). -/
structure RawDisasterRow where
  yearNum : Option ℤ
  dateParsed : Option SimpleDate
  typeVal : Option String
deriving Repr, DecidableEq

/-- A standardized per-source row `[event_date, year, disaster_type,
source]` (lines 228 and 253). -/
structure StdRow where
  event_date : Option SimpleDate
  year : Option ℤ
  disaster_type : String
  source : String
deriving Repr, DecidableEq

/-- pandas `astype(str)` on one cell: a missing value (NaN) becomes the
literal string "nan" — it does not stay missing (lines 226 and 251). -/
def astypeStr : Option String → String
  | none => "nan"
  | some s => s

/-- Standardize one raw row of a disaster source (lines 208-228 for the
Baris source, lines 233-253 for the Shreyansh source; both follow the
same scheme).  `hasYearCol` says whether the raw CSV has a `Year`
column: if so, `year` is taken from it and `event_date` is parsed
independently of it; otherwise `year` is the calendar year of the
parsed date. -/
def standardizeRow (hasYearCol : Bool) (src : String) (r : RawDisasterRow) : StdRow :=
  if hasYearCol then
    { event_date := r.dateParsed, year := r.yearNum,
      disaster_type := astypeStr r.typeVal, source := src }
  else
    { event_date := r.dateParsed, year := r.dateParsed.map SimpleDate.year,
      disaster_type := astypeStr r.typeVal, source := src }

/-- One canonical event: a row of `disasters_all` after cleaning. -/
structure Event where
  event_date : Option SimpleDate
  year : ℤ
  disaster_type : String
  source : String
deriving Repr, DecidableEq

/-- The configured valid year range of this revision (lines 263-265). -/
def yearInRange (y : ℤ) : Bool := decide (1900 ≤ y) && decide (y ≤ 2025)

/-- Lines 256-265: after rowwise concatenation,
`dropna(subset=["year", "disaster_type"])` drops rows with a missing
year (`disaster_type` is never missing at this point: `astype(str)` at
lines 226/251 already turned NaN labels into the string "nan"), `year`
is cast to int, and rows outside [1900, 2025] are dropped. -/
def cleanEvents (rows : List StdRow) : List Event :=
  rows.filterMap fun r =>
    match r.year with
    | none => none
    | some y =>
        if yearInRange y then
          some { event_date := r.event_date, year := y,
                 disaster_type := r.disaster_type, source := r.source }
        else none

/-- Lines 267-273: `groupby("year").size()` — one row per distinct year
of the canonical table (pandas emits group keys in ascending order),
with `disaster_count` the number of events of that year;
`sort_values("year")` keeps the order ascending. -/
def disastersPerYear (events : List Event) : List (ℤ × ℕ) :=
  let years := sortBy (fun a b => decide (a ≤ b)) (events.map Event.year).dedup
  years.map fun y => (y, events.countP (fun e => decide (e.year = y)))

/-- `load_disaster_data` (lines 190-275), abstracted over the parsed raw
rows of the two sources and over whether each CSV has a `Year` column.
Returns `(disasters_all, disasters_per_year)`. -/
def loadDisasterData (barHasYear shreyHasYear : Bool)
    (barRows shreyRows : List RawDisasterRow) : List Event × List (ℤ × ℕ) :=
  let all := cleanEvents
    (barRows.map (standardizeRow barHasYear "Baris_Dincer") ++
     shreyRows.map (standardizeRow shreyHasYear "Shreyansh_Dangi"))
  (all, disastersPerYear all)

/-! ## Aggregator : `build_merged_dataset` (lines 282-308) -/

/-- One row of the merged annual table `[year, TempF, disaster_count]`. -/
structure MergedRow where
  year : ℤ
  tempF : Option ℚ
  disaster_count : Option ℕ
deriving Repr, DecidableEq

/-- Value lookup for the merge: the value paired with the first
occurrence of key `y`, absent (NaN after the outer merge) when `y` has
no row on that side. -/
def lookupYear (y : ℤ) (t : List (ℤ × α)) : Option α :=
  (t.find? (fun p => decide (p.1 = y))).map Prod.snd

/-- `pd.merge(temps_annual, disasters_per_year, on="year", how="outer")`
followed by `.sort_values("year")` (lines 304-306).  Keys: all the left
keys, then the right-only keys; the final order is ascending by year
thanks to the explicit sort.  A side missing a key stays missing (NaN):
the code applies no `fillna` after the merge. -/
def outerMergeOnYear (temps : List (ℤ × ℚ)) (counts : List (ℤ × ℕ)) :
    List MergedRow :=
  let tys := temps.map Prod.fst
  let keys := tys ++ (counts.map Prod.fst).filter (fun y => !tys.contains y)
  sortBy (fun a b => decide (a.year ≤ b.year))
    (keys.map fun y =>
      { year := y, tempF := lookupYear y temps,
        disaster_count := lookupYear y counts })

/-- `build_merged_dataset` (lines 282-308), abstracted over the two
annual tables produced by the loaders: both are first clipped to
[1900, 2025] (lines 297-302), then outer-merged on year.  Returns
`(temps_annual, disasters_per_year, merged)`. -/
def buildMergedDataset (tempsAnnual : List (ℤ × ℚ)) (countsAnnual : List (ℤ × ℕ)) :
    List (ℤ × ℚ) × List (ℤ × ℕ) × List MergedRow :=
  let t := tempsAnnual.filter (fun p => yearInRange p.1)
  let c := countsAnnual.filter (fun p => yearInRange p.1)
  (t, c, outerMergeOnYear t c)

/-! ## SummaryEngine : `compute_disaster_summary` (lines 354-386) and
`disaster_type_counts` (lines 312-327) -/

/-- pandas `Series.dropna()` over one column of optional values. -/
def dropna (col : List (Option ℚ)) : List ℚ := col.filterMap id

/-- pandas `Series.min()` on a non-empty series (the `[]` case is an
unused default: `compute_disaster_summary` guards emptiness itself). -/
def seriesMin : List ℚ → ℚ
  | [] => 0
  | x :: xs => xs.foldl min x

/-- pandas `Series.max()` on a non-empty series. -/
def seriesMax : List ℚ → ℚ
  | [] => 0
  | x :: xs => xs.foldl max x

/-- pandas `Series.mean()` : the arithmetic mean. -/
def seriesMean (l : List ℚ) : ℚ := l.sum / l.length

/-- pandas `Series.median()` : middle element of the ascending sort, or
the average of the two central elements when the length is even. -/
def seriesMedian (l : List ℚ) : ℚ :=
  let s := sortBy (fun a b => decide (a ≤ b)) l
  let n := s.length
  if n % 2 = 1 then s.getD (n / 2) 0
  else (s.getD (n / 2 - 1) 0 + s.getD (n / 2) 0) / 2

/-- pandas `Series.var(ddof=1)` : sample variance with divisor n − 1. -/
def seriesSampleVar (l : List ℚ) : ℚ :=
  ((l.map fun x => (x - seriesMean l) ^ 2).sum) / ((l.length : ℚ) - 1)

/-- pandas `Series.std(ddof=1)` : sample standard deviation, the square
root of the sample variance. -/
noncomputable def seriesSampleStd (l : List ℚ) : ℝ :=
  Real.sqrt (seriesSampleVar l)

/-- The record returned by `compute_disaster_summary`: keys min, max,
mean, median, std, years_with_data (lines 370-386). -/
structure DisasterSummary where
  min : ℚ
  max : ℚ
  mean : ℚ
  median : ℚ
  std : ℝ
  years_with_data : ℕ

/-- Lines 367-386 of `compute_disaster_summary`: drop the missing
values; an empty remainder yields the all-zero record, otherwise the
pandas statistics of the remaining values. -/
noncomputable def computeDisasterSummary (col : List (Option ℚ)) : DisasterSummary :=
  let counts := dropna col
  if counts.isEmpty then
    { min := 0, max := 0, mean := 0, median := 0, std := 0, years_with_data := 0 }
  else
    { min := seriesMin counts, max := seriesMax counts,
      mean := seriesMean counts, median := seriesMedian counts,
      std := seriesSampleStd counts, years_with_data := counts.length }

/-- A `KeyError` raised by one of the guard clauses. -/
structure KeyErrorMsg where
  msg : String
deriving Repr, DecidableEq

/-- A loaded DataFrame as the two public entry points see it: the list
of column names, and the cells of any requested column (absent cells are
`none`).  `getNumCol`/`getStrCol` are only ever read at names that are
in `columns`. -/
structure DataTable where
  columns : List String
  getNumCol : String → List (Option ℚ)
  getStrCol : String → List (Option String)

/-- `compute_disaster_summary` including its guard (lines 364-365):
raises `KeyError` when the merged table has no `disaster_count` column. -/
noncomputable def computeDisasterSummaryChecked (merged : DataTable) :
    Except KeyErrorMsg DisasterSummary :=
  if merged.columns.contains "disaster_count" then
    Except.ok (computeDisasterSummary (merged.getNumCol "disaster_count"))
  else
    Except.error ⟨"Column 'disaster_count' not found in merged dataset."⟩

/-- pandas `Series.value_counts()` over a string column: one row per
distinct value with its number of occurrences, ordered by descending
count (`disaster_type_counts` re-applies `sort_values(ascending=False)`
at line 326, which keeps the order descending). -/
def valueCounts (l : List String) : List (String × ℕ) :=
  sortBy (fun a b => decide (b.2 ≤ a.2))
    (l.dedup.map fun k => (k, l.count k))

/-- `disaster_type_counts` (lines 312-327): raises `KeyError` when the
events table has no `disaster_type` column; otherwise `astype(str)` the
column (missing labels become "nan") and count the values. -/
def disasterTypeCounts (disastersAll : DataTable) :
    Except KeyErrorMsg (List (String × ℕ)) :=
  if disastersAll.columns.contains "disaster_type" then
    Except.ok (valueCounts ((disastersAll.getStrCol "disaster_type").map astypeStr))
  else
    Except.error ⟨"Column 'disaster_type' not found in disasters_all."⟩

/-! ## General lemmas about the helpers -/

theorem insertBy_perm (le : α → α → Bool) (x : α) (l : List α) :
    (insertBy le x l).Perm (x :: l) := by
  induction l with
  | nil => simp [insertBy]
  | cons y ys ih =>
      simp only [insertBy]
      by_cases h : le x y = true
      · simp [h]
      · simp only [h, if_false]
        exact ((ih.cons y).trans (List.Perm.swap x y ys))

theorem sortBy_perm (le : α → α → Bool) (l : List α) :
    (sortBy le l).Perm l := by
  induction l with
  | nil => simp [sortBy]
  | cons x xs ih =>
      exact (insertBy_perm le x (sortBy le xs)).trans (ih.cons x)

theorem countP_eq_of_nodup [DecidableEq α] (ys : List α) (h : ys.Nodup) (a : α) :
    ys.countP (fun x => decide (x = a)) = if a ∈ ys then 1 else 0 := by
  induction ys with
  | nil => simp
  | cons y ys ih =>
      rw [List.countP_cons]
      rcases List.nodup_cons.mp h with ⟨hy, hnd⟩
      by_cases hya : y = a
      · subst hya
        simp [List.countP_eq_zero.mpr, hy, ih hnd]
      · simp only [List.mem_cons]
        rw [ih hnd]
        by_cases ha : a ∈ ys <;> simp [ha, hya, Ne.symm hya]

theorem sum_map_addF (f g : α → ℕ) (l : List α) :
    (l.map fun x => f x + g x).sum = (l.map f).sum + (l.map g).sum := by
  induction l with
  | nil => simp
  | cons x xs ih =>
      simp only [List.map_cons, List.sum_cons, ih]
      ring

theorem sum_indicator_of_nodup [DecidableEq α] (ys : List α) (h : ys.Nodup)
    (a : α) (ha : a ∈ ys) :
    (ys.map fun y => if a = y then 1 else 0).sum = 1 := by
  induction ys with
  | nil => cases ha
  | cons y ys ih =>
      rcases List.nodup_cons.mp h with ⟨hy, hnd⟩
      rcases List.mem_cons.mp ha with rfl | hmem
      · simp only [List.map_cons, List.sum_cons, if_pos rfl]
        have : (ys.map fun y => if a = y then 1 else 0).sum = 0 := by
          apply List.sum_eq_zero
          intro x hx
          rcases List.mem_map.mp hx with ⟨z, hz, rfl⟩
          have : a ≠ z := fun hc => hy (hc ▸ hz)
          simp [this]
        simp [this]
      · have hne : a ≠ y := fun hc => hy (hc ▸ hmem)
        simp only [List.map_cons, List.sum_cons, if_neg hne]
        rw [ih hnd hmem]

theorem foldl_min_spec (a : ℚ) (xs : List ℚ) :
    xs.foldl min a ∈ a :: xs ∧ xs.foldl min a ≤ a ∧ ∀ x ∈ xs, xs.foldl min a ≤ x := by
  induction xs generalizing a with
  | nil => simp
  | cons x xs ih =>
      rcases ih (min a x) with ⟨hmem, hle, hall⟩
      have hfold : List.foldl min a (x :: xs) = List.foldl min (min a x) xs := rfl
      refine ⟨?_, ?_, ?_⟩
      · rcases List.mem_cons.mp hmem with heq | hmem'
        · rw [hfold, heq]
          rcases min_choice a x with hc | hc <;> rw [hc] <;> simp
        · rw [hfold]
          exact List.mem_cons_of_mem _ (List.mem_cons_of_mem _ hmem')
      · exact le_trans hle (min_le_left a x)
      · intro z hz
        rcases List.mem_cons.mp hz with rfl | hz'
        · exact le_trans hle (min_le_right a z)
        · exact hall z hz'

theorem foldl_max_spec (a : ℚ) (xs : List ℚ) :
    xs.foldl max a ∈ a :: xs ∧ a ≤ xs.foldl max a ∧ ∀ x ∈ xs, x ≤ xs.foldl max a := by
  induction xs generalizing a with
  | nil => simp
  | cons x xs ih =>
      rcases ih (max a x) with ⟨hmem, hle, hall⟩
      have hfold : List.foldl max a (x :: xs) = List.foldl max (max a x) xs := rfl
      refine ⟨?_, ?_, ?_⟩
      · rcases List.mem_cons.mp hmem with heq | hmem'
        · rw [hfold, heq]
          rcases max_choice a x with hc | hc <;> rw [hc] <;> simp
        · rw [hfold]
          exact List.mem_cons_of_mem _ (List.mem_cons_of_mem _ hmem')
      · exact le_trans (le_max_left a x) hle
      · intro z hz
        rcases List.mem_cons.mp hz with rfl | hz'
        · exact le_trans (le_max_right a z) hle
        · exact hall z hz'

/-- On any non-empty table, `_guess_disaster_type_column` returns the name
of one of the table's columns (it never raises): every branch of the
heuristic, including both last-column fallbacks, yields a member of the
column list. -/
theorem guessColumn_total (cols : List ColSpec) (hne : cols ≠ []) :
    ∃ n, guessDisasterTypeColumn cols = some n ∧ n ∈ cols.map ColSpec.name := by
  have hnames : cols.map ColSpec.name ≠ [] := by simpa using hne
  have hsub : ∀ c, c ∈ (cols.filter ColSpec.isObject).map ColSpec.name →
      c ∈ cols.map ColSpec.name := by
    intro c hc
    rcases List.mem_map.mp hc with ⟨col, hcol, rfl⟩
    exact List.mem_map.mpr ⟨col, List.mem_of_mem_filter hcol, rfl⟩
  have hlast : ∃ x, (cols.map ColSpec.name).getLast? = some x ∧
      x ∈ cols.map ColSpec.name := by
    cases h : (cols.map ColSpec.name).getLast? with
    | some x => exact ⟨x, rfl, List.mem_of_mem_getLast? h⟩
    | none => exact absurd (List.getLast?_eq_none_iff.mp h) hnames
  unfold guessDisasterTypeColumn
  by_cases hobj : ((cols.filter ColSpec.isObject).map ColSpec.name).isEmpty
  · rcases hlast with ⟨x, hx, hmx⟩
    exact ⟨x, by simp [hobj, hx], hmx⟩
  · simp only [hobj, if_false, Bool.false_eq_true]
    cases h1 : aliasNames.find? (fun a => (cols.map ColSpec.name).contains a) with
    | some a =>
        refine ⟨a, by simp [h1], ?_⟩
        have hp : (cols.map ColSpec.name).contains a = true := List.find?_some h1
        exact List.elem_iff.mp hp
    | none =>
        cases h2 : ((cols.filter ColSpec.isObject).map ColSpec.name).find? kwMatch with
        | some c =>
            exact ⟨c, by simp [h1, h2], hsub c (List.mem_of_find?_eq_some h2)⟩
        | none =>
            cases h3 : ((cols.filter ColSpec.isObject).map ColSpec.name).find?
                (fun c => !looksTemporal c) with
            | some c =>
                exact ⟨c, by simp [h1, h2, h3], hsub c (List.mem_of_find?_eq_some h3)⟩
            | none =>
                rcases hlast with ⟨x, hx, hmx⟩
                exact ⟨x, by simp [h1, h2, h3, hx], hmx⟩

/-- C4 (counterexample).  The claim fails on both of its parts.
With columns `EventDate, Var2..Var5` all string-typed — so that, as the
claim assumes, no alias and no keyword matches (`kwMatch` is false on
every name) — the resolver returns "Var2" (the first string column whose
name is not date/year/time/id-like), not the last column "Var5".  And on
a table holding both "Disaster_Subtype" and "Disaster_Type", the alias
list (which contains "Disaster_Type" but not "Disaster_Subtype") makes
the resolver return "Disaster_Type", not "Disaster_Subtype". -/
theorem c4_resolver_counterexample :
    (["EventDate", "Var2", "Var3", "Var4", "Var5"].all fun c => !kwMatch c) = true ∧
    guessDisasterTypeColumn
      [⟨"EventDate", true⟩, ⟨"Var2", true⟩, ⟨"Var3", true⟩,
       ⟨"Var4", true⟩, ⟨"Var5", true⟩] = some "Var2" ∧
    some "Var2" ≠ some "Var5" ∧
    guessDisasterTypeColumn
      [⟨"Disaster_Subtype", true⟩, ⟨"Disaster_Type", true⟩] = some "Disaster_Type" ∧
    some "Disaster_Type" ≠ some "Disaster_Subtype" := by
  decide

/-- C4 (amended).  On the columns `EventDate, Var2..Var5` with no alias
and no keyword match, the resolved column depends on which columns are
string-typed.  If no column is string-typed, or `EventDate` is the only
string-typed column, the resolver returns "Var5" through the
last-column fallback; if `Var5` is the only string-typed column it also
returns "Var5", this time as the first string column not matching the
date/year/time/id filter; but if `Var2..Var5` are all string-typed it
returns "Var2" (the first such column), not "Var5".  On a table with
both "Disaster_Subtype" and "Disaster_Type" it returns "Disaster_Type":
the alias list of step 1 contains "Disaster_Type" and does not contain
"Disaster_Subtype". -/
theorem c4_resolver_fallbacks :
    guessDisasterTypeColumn
      [⟨"EventDate", true⟩, ⟨"Var2", false⟩, ⟨"Var3", false⟩,
       ⟨"Var4", false⟩, ⟨"Var5", false⟩] = some "Var5" ∧
    guessDisasterTypeColumn
      [⟨"EventDate", false⟩, ⟨"Var2", false⟩, ⟨"Var3", false⟩,
       ⟨"Var4", false⟩, ⟨"Var5", false⟩] = some "Var5" ∧
    guessDisasterTypeColumn
      [⟨"EventDate", false⟩, ⟨"Var2", false⟩, ⟨"Var3", false⟩,
       ⟨"Var4", false⟩, ⟨"Var5", true⟩] = some "Var5" ∧
    guessDisasterTypeColumn
      [⟨"EventDate", true⟩, ⟨"Var2", true⟩, ⟨"Var3", true⟩,
       ⟨"Var4", true⟩, ⟨"Var5", true⟩] = some "Var2" ∧
    guessDisasterTypeColumn
      [⟨"Disaster_Subtype", true⟩, ⟨"Disaster_Type", true⟩] = some "Disaster_Type" := by
  decide

/-- C6.  The Berkeley loader converts Celsius readings to Fahrenheit by
exactly `c * 9 / 5 + 32` (the spec's formula), mapping 0 °C to 32 °F and
100 °C to 212 °F, while the two sources already in Fahrenheit (Gia's
annual averages and Josep Ferrer's monthly readings) pass every value
through unchanged. -/
theorem c6_celsius_conversion :
    (∀ c : ℚ, berkTempF c = specCelsiusToF c) ∧
    berkTempF 0 = 32 ∧ berkTempF 100 = 212 ∧
    (∀ v : ℚ, giaTempF v = v ∧ josepTempF v = v) := by
  refine ⟨fun c => ?_, by norm_num [berkTempF], by norm_num [berkTempF],
    fun v => ⟨rfl, rfl⟩⟩
  unfold berkTempF specCelsiusToF
  ring

/-- C9.  The disaster-type column resolver can fail only on a table with
no columns at all (in particular, only when there is no string-typed
column); on any table that has at least one string-typed column it
returns the name of one of the table's columns, degrading through its
fallbacks rather than failing. -/
theorem c9_resolver_never_fails :
    ∀ cols : List ColSpec,
      (guessDisasterTypeColumn cols = none → cols.filter ColSpec.isObject = []) ∧
      ((∃ c ∈ cols, c.isObject = true) →
        ∃ n, guessDisasterTypeColumn cols = some n ∧ n ∈ cols.map ColSpec.name) := by
  intro cols
  constructor
  · intro hnone
    by_cases hc : cols = []
    · subst hc; rfl
    · rcases guessColumn_total cols hc with ⟨n, hn, _⟩
      rw [hn] at hnone
      cases hnone
  · rintro ⟨c, hc, _⟩
    exact guessColumn_total cols (List.ne_nil_of_mem hc)

/-- Witness for C9 at a concrete one-column table. -/
theorem c9_resolver_never_fails_witness :
    ∃ n, guessDisasterTypeColumn [⟨"Hazard", true⟩] = some n ∧
      n ∈ ([⟨"Hazard", true⟩] : List ColSpec).map ColSpec.name :=
  (c9_resolver_never_fails [⟨"Hazard", true⟩]).2 ⟨⟨"Hazard", true⟩, by decide, rfl⟩

/-- C2 (counterexample).  A row whose disaster-type label is missing is
not dropped: `astype(str)` (lines 226/251) runs before the
`dropna(subset=["year", "disaster_type"])` of line 259 and turns the
missing label into the literal string "nan", so the row survives the
dropna and still contributes to the annual counts.  Concretely, a single
Baris row with a parseable date (year 2000) and a missing type label
yields a one-row canonical table and a disaster count of 1 for year
2000, where the claim demands the row be absent. -/
theorem c2_missing_type_retained_counterexample :
    (⟨none, some ⟨2000, 1, 1⟩, none⟩ : RawDisasterRow).typeVal = none ∧
    loadDisasterData false false [⟨none, some ⟨2000, 1, 1⟩, none⟩] [] =
      ([⟨some ⟨2000, 1, 1⟩, 2000, "nan", "Baris_Dincer"⟩], [(2000, 1)]) := by
  constructor
  · rfl
  · decide

/-- C2 (amended).  Row dropping in `load_disaster_data` is driven by the
derived year alone: a standardized row is absent from the canonical
table exactly when its `year` is missing (its `Year` cell unparseable or
missing when the source has a `Year` column; its date unparseable
otherwise) or falls outside [1900, 2025].  A missing disaster-type label
never drops a row — the retained event carries the string "nan" — and an
unparseable date alone never drops a row of a source with an explicit
`Year` column.  Dropping is silent and rowwise: cleaning a batch is the
concatenation of cleaning its parts, so one bad row never halts the
batch, and the cleaning function is total (never raises). -/
theorem c2_row_drop_amended :
    ∀ (hasYear : Bool) (src : String) (r : RawDisasterRow),
      (hasYear = true → (standardizeRow hasYear src r).year = r.yearNum) ∧
      (hasYear = false →
        (standardizeRow hasYear src r).year = r.dateParsed.map SimpleDate.year) ∧
      (cleanEvents [standardizeRow hasYear src r] = [] ↔
        (standardizeRow hasYear src r).year = none ∨
        ∃ y, (standardizeRow hasYear src r).year = some y ∧ yearInRange y = false) ∧
      (∀ e ∈ cleanEvents [standardizeRow hasYear src r],
        e.disaster_type = astypeStr r.typeVal ∧ e.event_date = r.dateParsed) ∧
      (∀ pre post : List StdRow,
        cleanEvents (pre ++ standardizeRow hasYear src r :: post) =
          cleanEvents pre ++ cleanEvents [standardizeRow hasYear src r] ++
            cleanEvents post) := by
  intro hasYear src r
  have hdt : (standardizeRow hasYear src r).disaster_type = astypeStr r.typeVal := by
    cases hasYear <;> rfl
  have hed : (standardizeRow hasYear src r).event_date = r.dateParsed := by
    cases hasYear <;> rfl
  refine ⟨fun h => by subst h; rfl, fun h => by subst h; rfl, ?_, ?_, ?_⟩
  · cases hy : (standardizeRow hasYear src r).year with
    | none => simp [cleanEvents, hy]
    | some y =>
        by_cases hr : yearInRange y
        · simp [cleanEvents, hy, hr]
        · simp only [Bool.not_eq_true] at hr
          simp [cleanEvents, hy, hr]
  · intro e he
    cases hy : (standardizeRow hasYear src r).year with
    | none => simp [cleanEvents, hy] at he
    | some y =>
        by_cases hr : yearInRange y
        · simp only [cleanEvents, List.filterMap, hy, hr, if_true] at he
          simp only [List.mem_singleton] at he
          subst he
          exact ⟨hdt, hed⟩
        · simp [cleanEvents, hy, hr] at he
  · intro pre post
    have hassoc : pre ++ standardizeRow hasYear src r :: post =
        (pre ++ [standardizeRow hasYear src r]) ++ post := by simp
    rw [hassoc]
    unfold cleanEvents
    rw [List.filterMap_append, List.filterMap_append]

/-- C3 (counterexample).  When a source has an explicit `Year` column,
`year` comes from that column while `event_date` is parsed independently
from the date column, so the two can disagree: a Baris row with
`Year = 2000` and a date parsing to 2001-05-05 is retained with
`year = 2000` and `event_date` in calendar year 2001 — both fields
present and the year not equal to the calendar year of the date. -/
theorem c3_year_mismatch_counterexample :
    loadDisasterData true false [⟨some 2000, some ⟨2001, 5, 5⟩, some "Flood"⟩] [] =
      ([⟨some ⟨2001, 5, 5⟩, 2000, "Flood", "Baris_Dincer"⟩], [(2000, 1)]) ∧
    (⟨some ⟨2001, 5, 5⟩, 2000, "Flood", "Baris_Dincer"⟩ : Event).year ≠
      (⟨2001, 5, 5⟩ : SimpleDate).year := by
  constructor
  · decide
  · decide

/-- C3 (amended).  Every retained event has its year within the
configured range [1900, 2025] (and its `year` and `disaster_type` are
by construction non-missing: `year : ℤ`, `disaster_type : String`).
When the source has no explicit `Year` column the year is derived from
the date, so `event_date` is present and `year` equals its calendar
year; when the source has an explicit `Year` column the year comes from
that column and may differ from the calendar year of `event_date`. -/
theorem c3_year_invariant_amended :
    ∀ (hasYear : Bool) (src : String) (rows : List RawDisasterRow) (e : Event),
      e ∈ cleanEvents (rows.map (standardizeRow hasYear src)) →
      (1900 ≤ e.year ∧ e.year ≤ 2025) ∧
      (hasYear = false → ∃ d, e.event_date = some d ∧ e.year = d.year) := by
  intro hasYear src rows e he
  rcases List.mem_filterMap.mp he with ⟨s, hs, hfs⟩
  split at hfs
  · cases hfs
  · rename_i y hy
    split at hfs
    · rename_i hr
      have hey : e = ⟨s.event_date, y, s.disaster_type, s.source⟩ :=
        (Option.some.inj hfs).symm
      have hrange : 1900 ≤ y ∧ y ≤ 2025 := by
        simpa [yearInRange] using hr
      subst hey
      refine ⟨hrange, ?_⟩
      rintro rfl
      rcases List.mem_map.mp hs with ⟨r0, _, rfl⟩
      have hmapy : r0.dateParsed.map SimpleDate.year = some y := hy
      rcases Option.map_eq_some'.mp hmapy with ⟨d, hd, hdy⟩
      exact ⟨d, by simp [standardizeRow, hd], hdy.symm⟩
    · cases hfs

/-- The per-year counts of a nodup, covering year list add up to the
number of events: each event contributes exactly one to the bucket of
its own year. -/
theorem sum_counts_complete (evs : List Event) (ys : List ℤ) (hnd : ys.Nodup)
    (hcov : ∀ e ∈ evs, e.year ∈ ys) :
    (ys.map fun y => evs.countP (fun e => decide (e.year = y))).sum = evs.length := by
  induction evs with
  | nil => simp
  | cons e evs ih =>
      have hcov' : ∀ x ∈ evs, x.year ∈ ys :=
        fun x hx => hcov x (List.mem_cons_of_mem _ hx)
      have hey : e.year ∈ ys := hcov e (List.mem_cons_self _ _)
      simp only [List.countP_cons, decide_eq_true_eq]
      rw [sum_map_addF, ih hcov', sum_indicator_of_nodup ys hnd e.year hey]
      simp

/-- Witness for C2 at a concrete Baris row with a parseable date and a
missing type label. -/
theorem c2_row_drop_amended_witness :
    (⟨some ⟨2000, 1, 1⟩, 2000, "nan", "Baris_Dincer"⟩ : Event).disaster_type =
      astypeStr none ∧
    (⟨some ⟨2000, 1, 1⟩, 2000, "nan", "Baris_Dincer"⟩ : Event).event_date =
      some ⟨2000, 1, 1⟩ :=
  (c2_row_drop_amended false "Baris_Dincer" ⟨none, some ⟨2000, 1, 1⟩, none⟩).2.2.2.1
    ⟨some ⟨2000, 1, 1⟩, 2000, "nan", "Baris_Dincer"⟩ (by decide)

/-- Witness for C3 at a concrete retained event of a source without a
`Year` column. -/
theorem c3_year_invariant_amended_witness :
    (1900 ≤ (⟨some ⟨2001, 5, 5⟩, 2001, "Flood", "Baris_Dincer"⟩ : Event).year ∧
      (⟨some ⟨2001, 5, 5⟩, 2001, "Flood", "Baris_Dincer"⟩ : Event).year ≤ 2025) ∧
    (false = false → ∃ d,
      (⟨some ⟨2001, 5, 5⟩, 2001, "Flood", "Baris_Dincer"⟩ : Event).event_date = some d ∧
      (⟨some ⟨2001, 5, 5⟩, 2001, "Flood", "Baris_Dincer"⟩ : Event).year = d.year) :=
  c3_year_invariant_amended false "Baris_Dincer"
    [⟨none, some ⟨2001, 5, 5⟩, some "Flood"⟩]
    ⟨some ⟨2001, 5, 5⟩, 2001, "Flood", "Baris_Dincer"⟩ (by decide)

/-- The per-year aggregation sums back to the number of events. -/
theorem disastersPerYear_sum (evs : List Event) :
    ((disastersPerYear evs).map Prod.snd).sum = evs.length := by
  unfold disastersPerYear
  rw [List.map_map]
  have hperm := (sortBy_perm (fun a b => decide (a ≤ b)) (evs.map Event.year).dedup).map
    (fun y => evs.countP (fun e => decide (e.year = y)))
  have hcomp : (Prod.snd ∘ fun y => (y, evs.countP fun e => decide (e.year = y))) =
      fun y => evs.countP (fun e => decide (e.year = y)) := rfl
  rw [hcomp, hperm.sum_eq]
  exact sum_counts_complete evs _ (List.nodup_dedup _)
    (fun e he => List.mem_dedup.mpr (List.mem_map.mpr ⟨e, he, rfl⟩))

/-- C5.  For every canonical events table produced by
`load_disaster_data`, the `disaster_count` column of the per-year count
table sums to the number of rows of the canonical table: the groupby
buckets partition the events, whatever the configured year range left in
the canonical table. -/
theorem c5_count_conservation :
    ∀ (barHasYear shreyHasYear : Bool) (barRows shreyRows : List RawDisasterRow),
      ((loadDisasterData barHasYear shreyHasYear barRows shreyRows).2.map
        Prod.snd).sum =
      (loadDisasterData barHasYear shreyHasYear barRows shreyRows).1.length := by
  intro bh sh br sr
  exact disastersPerYear_sum _

/-- A year with no row on one side of the merge looks it up to `none`. -/
theorem lookupYear_eq_none {α : Type} (y : ℤ) (l : List (ℤ × α))
    (h : y ∉ l.map Prod.fst) : lookupYear y l = none := by
  unfold lookupYear
  rw [List.find?_eq_none.mpr]
  · rfl
  · intro p hp
    simp only [decide_eq_true_eq]
    intro hpy
    exact h (List.mem_map.mpr ⟨p, hp, hpy⟩)

/-- The outer merge of two annual tables with unique years: every year of
either side appears exactly once, and each merged row carries exactly the
looked-up values of its year on the two sides (absent sides stay `none`). -/
theorem outerMerge_spec (t : List (ℤ × ℚ)) (c : List (ℤ × ℕ))
    (ht : (t.map Prod.fst).Nodup) (hc : (c.map Prod.fst).Nodup) :
    (∀ y : ℤ, (outerMergeOnYear t c).countP (fun row => decide (row.year = y)) =
      if y ∈ t.map Prod.fst ∨ y ∈ c.map Prod.fst then 1 else 0) ∧
    (∀ row ∈ outerMergeOnYear t c,
      row.tempF = lookupYear row.year t ∧
      row.disaster_count = lookupYear row.year c) := by
  have hkeysnd : ((t.map Prod.fst) ++
      ((c.map Prod.fst).filter (fun y => !(t.map Prod.fst).contains y))).Nodup := by
    refine List.Nodup.append ht (hc.filter _) ?_
    intro a ha hb
    rcases List.mem_filter.mp hb with ⟨_, hcond⟩
    rw [Bool.not_eq_eq_eq_not, Bool.not_true] at hcond
    have hmem : (t.map Prod.fst).contains a = true := List.elem_iff.mpr ha
    rw [hcond] at hmem
    cases hmem
  have hkeymem : ∀ y : ℤ, (y ∈ (t.map Prod.fst) ++
      ((c.map Prod.fst).filter (fun x => !(t.map Prod.fst).contains x))) ↔
      (y ∈ t.map Prod.fst ∨ y ∈ c.map Prod.fst) := by
    intro y
    constructor
    · intro h
      rcases List.mem_append.mp h with h | h
      · exact Or.inl h
      · exact Or.inr (List.mem_of_mem_filter h)
    · intro h
      by_cases hty : y ∈ t.map Prod.fst
      · exact List.mem_append.mpr (Or.inl hty)
      · rcases h with h | h
        · exact absurd h hty
        · refine List.mem_append.mpr (Or.inr (List.mem_filter.mpr ⟨h, ?_⟩))
          rw [Bool.not_eq_eq_eq_not, Bool.not_true]
          rw [← Bool.not_eq_true]
          intro hcontra
          exact hty (List.elem_iff.mp hcontra)
  have hunfold : outerMergeOnYear t c =
      sortBy (fun a b => decide (a.year ≤ b.year))
        (((t.map Prod.fst) ++
          ((c.map Prod.fst).filter (fun y => !(t.map Prod.fst).contains y))).map
          (fun y => ⟨y, lookupYear y t, lookupYear y c⟩)) := rfl
  have hperm := sortBy_perm (fun a b : MergedRow => decide (a.year ≤ b.year))
    (((t.map Prod.fst) ++
      ((c.map Prod.fst).filter (fun y => !(t.map Prod.fst).contains y))).map
      (fun y => ⟨y, lookupYear y t, lookupYear y c⟩))
  constructor
  · intro y
    rw [hunfold, hperm.countP_eq, List.countP_map]
    have hcong : (((t.map Prod.fst) ++
        ((c.map Prod.fst).filter (fun x => !(t.map Prod.fst).contains x))).countP
          ((fun row => decide (row.year = y)) ∘
            (fun x => (⟨x, lookupYear x t, lookupYear x c⟩ : MergedRow)))) =
        (((t.map Prod.fst) ++
          ((c.map Prod.fst).filter (fun x => !(t.map Prod.fst).contains x))).countP
          (fun x => decide (x = y))) := rfl
    rw [hcong, countP_eq_of_nodup _ hkeysnd y]
    by_cases h : y ∈ t.map Prod.fst ∨ y ∈ c.map Prod.fst
    · rw [if_pos ((hkeymem y).mpr h), if_pos h]
    · rw [if_neg (fun hmem => h ((hkeymem y).mp hmem)), if_neg h]
  · intro row hrow
    rw [hunfold] at hrow
    have hmem := hperm.mem_iff.mp hrow
    rcases List.mem_map.mp hmem with ⟨y, _, rfl⟩
    exact ⟨rfl, rfl⟩

/-- C1 (counterexample).  `build_merged_dataset` performs the outer merge
but never fills the missing `disaster_count` with 0 (there is no `fillna`
after the `pd.merge` of lines 304-306): merging a temperature table with
only year 2000 against a count table with only year 2001 leaves the 2000
row's `disaster_count` absent (NaN), not 0, contradicting the claimed
default. -/
theorem c1_no_zero_fill_counterexample :
    (buildMergedDataset [((2000 : ℤ), (50 : ℚ))] [((2001 : ℤ), (3 : ℕ))]).2.2 =
      [⟨2000, some 50, none⟩, ⟨2001, none, some 3⟩] ∧
    (⟨2000, some 50, none⟩ : MergedRow).disaster_count ≠ some 0 := by
  constructor
  · decide
  · decide

/-- C1 (amended).  For annual tables with unique years, the merged table
returned by `build_merged_dataset` is the outer join on year of the two
(range-clipped) annual tables it returns: every year present in either
side appears exactly once, each row carries the looked-up values of its
year, a year present only in the temperature table keeps its
`disaster_count` absent (NaN — it is not filled with 0), and a year
present only in the count table keeps its `TempF` absent. -/
theorem c1_outer_merge_amended (temps : List (ℤ × ℚ)) (counts : List (ℤ × ℕ))
    (ht : (temps.map Prod.fst).Nodup) (hc : (counts.map Prod.fst).Nodup) :
    (∀ y : ℤ,
      (buildMergedDataset temps counts).2.2.countP (fun row => decide (row.year = y)) =
        if y ∈ (buildMergedDataset temps counts).1.map Prod.fst ∨
            y ∈ (buildMergedDataset temps counts).2.1.map Prod.fst then 1 else 0) ∧
    (∀ row ∈ (buildMergedDataset temps counts).2.2,
      row.tempF = lookupYear row.year (buildMergedDataset temps counts).1 ∧
      row.disaster_count = lookupYear row.year (buildMergedDataset temps counts).2.1) ∧
    (∀ row ∈ (buildMergedDataset temps counts).2.2,
      row.year ∉ (buildMergedDataset temps counts).2.1.map Prod.fst →
        row.disaster_count = none) ∧
    (∀ row ∈ (buildMergedDataset temps counts).2.2,
      row.year ∉ (buildMergedDataset temps counts).1.map Prod.fst →
        row.tempF = none) := by
  have htf : ((temps.filter (fun p => yearInRange p.1)).map Prod.fst).Nodup :=
    ht.sublist ((List.filter_sublist _).map Prod.fst)
  have hcf : ((counts.filter (fun p => yearInRange p.1)).map Prod.fst).Nodup :=
    hc.sublist ((List.filter_sublist _).map Prod.fst)
  rcases outerMerge_spec (temps.filter (fun p => yearInRange p.1))
    (counts.filter (fun p => yearInRange p.1)) htf hcf with ⟨hcount, hvals⟩
  refine ⟨hcount, hvals, ?_, ?_⟩
  · intro row hrow hnot
    rw [(hvals row hrow).2]
    exact lookupYear_eq_none _ _ hnot
  · intro row hrow hnot
    rw [(hvals row hrow).1]
    exact lookupYear_eq_none _ _ hnot

/-- Witness for C1 at the concrete pair of one-row annual tables. -/
theorem c1_outer_merge_amended_witness :
    (buildMergedDataset [((2000 : ℤ), (50 : ℚ))] [((2001 : ℤ), (3 : ℕ))]).2.2.countP
      (fun row => decide (row.year = 2000)) = 1 := by
  have h := (c1_outer_merge_amended [((2000 : ℤ), (50 : ℚ))] [((2001 : ℤ), (3 : ℕ))]
    (by decide) (by decide)).1 2000
  rw [h]
  decide

/-- C8.  On a column with zero non-absent observations,
`compute_disaster_summary` returns the all-zero record (and, being a
total function of the column, never raises). -/
theorem c8_summary_empty :
    ∀ col : List (Option ℚ), dropna col = [] →
      computeDisasterSummary col = ⟨0, 0, 0, 0, 0, 0⟩ := by
  intro col h
  unfold computeDisasterSummary
  rw [h]
  rfl

/-- Witness for C8 at the one-cell all-missing column. -/
theorem c8_summary_empty_witness :
    computeDisasterSummary [none] = ⟨0, 0, 0, 0, 0, 0⟩ :=
  c8_summary_empty [none] rfl

/-- C7.  On any column with at least one non-absent observation,
`compute_disaster_summary` returns: min and max the extrema of the
observed values, mean their arithmetic mean, median the middle of the
ascending sort (average of the two central values for even length), std
the sample standard deviation (square root of the squared deviations
from the mean divided by n − 1), and count the number of non-absent
observations.  In particular on [1, 2, 3, 4] it returns min 1, max 4,
mean 5/2, median 5/2, count 4, and std the sample standard deviation of
[1, 2, 3, 4], namely √(5/3) ≈ 1.290994. -/
theorem c7_summary_stats (col : List (Option ℚ)) (hne : dropna col ≠ []) :
    ((computeDisasterSummary col).min ∈ dropna col ∧
      ∀ x ∈ dropna col, (computeDisasterSummary col).min ≤ x) ∧
    ((computeDisasterSummary col).max ∈ dropna col ∧
      ∀ x ∈ dropna col, x ≤ (computeDisasterSummary col).max) ∧
    (computeDisasterSummary col).mean =
      (dropna col).sum / ((dropna col).length : ℚ) ∧
    (computeDisasterSummary col).median = seriesMedian (dropna col) ∧
    (computeDisasterSummary col).std =
      Real.sqrt (((((dropna col).map
        fun x => (x - seriesMean (dropna col)) ^ 2).sum) /
        (((dropna col).length : ℚ) - 1) : ℚ)) ∧
    (computeDisasterSummary col).years_with_data = (dropna col).length ∧
    computeDisasterSummary [some 1, some 2, some 3, some 4] =
      ⟨1, 4, 5 / 2, 5 / 2, seriesSampleStd [1, 2, 3, 4], 4⟩ ∧
    seriesSampleStd [1, 2, 3, 4] = Real.sqrt ((5 : ℝ) / 3) := by
  rcases hl : dropna col with _ | ⟨x, xs⟩
  · exact absurd hl hne
  have hcds : computeDisasterSummary col =
      ⟨seriesMin (x :: xs), seriesMax (x :: xs), seriesMean (x :: xs),
       seriesMedian (x :: xs), seriesSampleStd (x :: xs), (x :: xs).length⟩ := by
    unfold computeDisasterSummary
    rw [hl]
    rfl
  have hvar1234 : seriesSampleVar [1, 2, 3, 4] = 5 / 3 := by
    norm_num [seriesSampleVar, seriesMean]
  have hstd1234 : seriesSampleStd [1, 2, 3, 4] = Real.sqrt ((5 : ℝ) / 3) := by
    unfold seriesSampleStd
    rw [hvar1234]
    norm_num
  rcases foldl_min_spec x xs with ⟨hminmem, hminle, hminall⟩
  rcases foldl_max_spec x xs with ⟨hmaxmem, hmaxle, hmaxall⟩
  refine ⟨⟨?_, ?_⟩, ⟨?_, ?_⟩, ?_, ?_, ?_, ?_, ?_, hstd1234⟩
  · rw [hcds]
    exact hminmem
  · intro z hz
    rw [hcds]
    show xs.foldl min x ≤ z
    rcases List.mem_cons.mp hz with rfl | hz'
    · exact hminle
    · exact hminall z hz'
  · rw [hcds]
    exact hmaxmem
  · intro z hz
    rw [hcds]
    show z ≤ xs.foldl max x
    rcases List.mem_cons.mp hz with rfl | hz'
    · exact hmaxle
    · exact hmaxall z hz'
  · rw [hcds]
    rfl
  · rw [hcds]
  · rw [hcds]
    show seriesSampleStd (x :: xs) = _
    unfold seriesSampleStd seriesSampleVar seriesMean
    rfl
  · rw [hcds]
  · have hdrop : dropna [some 1, some 2, some 3, some 4] = [1, 2, 3, 4] := rfl
    have h1 : seriesMin [1, 2, 3, 4] = 1 := by norm_num [seriesMin, min_def]
    have h2 : seriesMax [1, 2, 3, 4] = 4 := by norm_num [seriesMax, max_def]
    have h3 : seriesMean [1, 2, 3, 4] = 5 / 2 := by norm_num [seriesMean]
    have hsort : sortBy (fun a b => decide (a ≤ b)) ([1, 2, 3, 4] : List ℚ) =
        [1, 2, 3, 4] := by
      norm_num [sortBy, insertBy]
    have h4 : seriesMedian [1, 2, 3, 4] = 5 / 2 := by
      simp only [seriesMedian, hsort]
      norm_num [List.getD]
    simp only [computeDisasterSummary, hdrop, List.isEmpty_cons, Bool.false_eq_true,
      if_false]
    rw [h1, h2, h3, h4]
    rfl

/-- Witness for C7 at the concrete column of the claim's example. -/
theorem c7_summary_stats_witness :
    computeDisasterSummary [some 1, some 2, some 3, some 4] =
      ⟨1, 4, 5 / 2, 5 / 2, seriesSampleStd [1, 2, 3, 4], 4⟩ :=
  (c7_summary_stats [some 1, some 2, some 3, some 4] (by decide)).2.2.2.2.2.2.1

/-- C10.  Each public summary entry point checks its required column and
raises `KeyError` when it is missing — `disaster_type_counts` for the
`disaster_type` column and `compute_disaster_summary` for the
`disaster_count` column — and returns a normal result when the column is
present. -/
theorem c10_keyerror_guards :
    ∀ merged events : DataTable,
      (("disaster_count" ∈ merged.columns →
          ∃ s, computeDisasterSummaryChecked merged = Except.ok s) ∧
        ("disaster_count" ∉ merged.columns →
          computeDisasterSummaryChecked merged =
            Except.error ⟨"Column 'disaster_count' not found in merged dataset."⟩)) ∧
      (("disaster_type" ∈ events.columns →
          ∃ v, disasterTypeCounts events = Except.ok v) ∧
        ("disaster_type" ∉ events.columns →
          disasterTypeCounts events =
            Except.error ⟨"Column 'disaster_type' not found in disasters_all."⟩)) := by
  intro merged events
  constructor
  · constructor
    · intro h
      unfold computeDisasterSummaryChecked
      rw [if_pos (List.elem_iff.mpr h)]
      exact ⟨_, rfl⟩
    · intro h
      unfold computeDisasterSummaryChecked
      rw [if_neg (fun hc => h (List.elem_iff.mp hc))]
  · constructor
    · intro h
      unfold disasterTypeCounts
      rw [if_pos (List.elem_iff.mpr h)]
      exact ⟨_, rfl⟩
    · intro h
      unfold disasterTypeCounts
      rw [if_neg (fun hc => h (List.elem_iff.mp hc))]

/-- Witness for C10 at two concrete one-column tables. -/
theorem c10_keyerror_guards_witness :
    (∃ s, computeDisasterSummaryChecked
        ⟨["disaster_count"], fun _ => [], fun _ => []⟩ = Except.ok s) ∧
    disasterTypeCounts ⟨["year"], fun _ => [], fun _ => []⟩ =
      Except.error ⟨"Column 'disaster_type' not found in disasters_all."⟩ :=
  ⟨(c10_keyerror_guards ⟨["disaster_count"], fun _ => [], fun _ => []⟩
      ⟨["year"], fun _ => [], fun _ => []⟩).1.1 (by simp),
   (c10_keyerror_guards ⟨["disaster_count"], fun _ => [], fun _ => []⟩
      ⟨["year"], fun _ => [], fun _ => []⟩).2.2 (by simp)⟩
